import Mathlib

/-!
Verification development for the tarot-reading bot (src/main.py).

The reading engine is shallowly embedded: Python strings become `String`,
card records become the `Card` structure, the global random stream is an
explicit oracle argument (`Nat → Bool` for coin flips, `Nat → Nat` for the
index choices made by `random.sample`), the filesystem is an oracle
(`String → Bool` for `os.path.exists`, `String → Bool` for whether
`Image.open`/compositing succeeds), and PIL drawing calls become an ordered
trace of `DrawOp` values on a fixed canvas.
-/

set_option maxRecDepth 4000

namespace TarotBot

/-- Python `str.lower()` (ASCII-adequate for the deck data). -/
def pyLower (s : String) : String :=
  String.mk (s.data.map Char.toLower)

/-- One step of Python `str.title()`: a cased character is uppercased when the
previous character was not alphabetic, lowercased otherwise. -/
def titleChar (prevAlpha : Bool) (c : Char) : Char :=
  if c.isAlpha then (if prevAlpha then c.toLower else c.toUpper) else c

def titleAux : Bool → List Char → List Char
  | _, [] => []
  | prev, c :: cs => titleChar prev c :: titleAux c.isAlpha cs

/-- Python `str.title()`. -/
def pyTitle (s : String) : String :=
  String.mk (titleAux false s.data)

/-- Python underscore-to-space replace on the spread type, as used in src/main.py line 44. -/
def replaceUnderscores (s : String) : String :=
  String.mk (s.data.map (fun c => if c = '_' then ' ' else c))

/-- Python space-to-underscore replace on the card name, as used in src/main.py line 80. -/
def spacesToUnderscores (s : String) : String :=
  String.mk (s.data.map (fun c => if c = ' ' then '_' else c))

/-- `needle.isEmpty` or `needle` is a leading block of `hay`. -/
def listPrefixOf : List Char → List Char → Bool
  | [], _ => true
  | _ :: _, [] => false
  | a :: as, b :: bs => a == b && listPrefixOf as bs

def listContainsSub : List Char → List Char → Bool
  | hay, needle =>
    match hay with
    | [] => needle.isEmpty
    | _ :: rest => listPrefixOf needle hay || listContainsSub rest needle

/-- Python substring test `needle in hay`. -/
def strContains (hay needle : String) : Bool :=
  listContainsSub hay.data needle.data

/-- A single apostrophe character, for building user-visible messages. -/
def sq : String := String.singleton (Char.ofNat 39)

/-- A card record of data/tarot_cards.json as the code consumes it:
`number, name, arcana, suit (nullable), keywords, meaning_up, meaning_rev`.
`number` is kept in its f-string rendering. -/
structure Card where
  number : String
  name : String
  arcana : String
  suit : Option String
  keywords : List String
  meaning_up : String
  meaning_rev : String
deriving DecidableEq

def defaultCard : Card :=
  { number := "", name := "", arcana := "", suit := none, keywords := [],
    meaning_up := "", meaning_rev := "" }

/-- The SPREADS dict of src/main.py lines 25-33, in insertion order. -/
def SPREADS : List (String × List String) :=
  [("single", ["Present"]),
   ("three_card", ["Past", "Present", "Future"]),
   ("celtic_cross", ["1. Present", "2. Challenge", "3. Past", "4. Future",
      "5. Above", "6. Below", "7. Advice", "8. External",
      "9. Hopes/Fears", "10. Outcome"]),
   ("relationship", ["You", "Partner", "Connection", "Advice"]),
   ("career", ["Current Situation", "Challenges", "Opportunities", "Outcome"])]

/-- Python `spread_type in SPREADS` / `SPREADS.get(spread_type)`. -/
def spreadsLookup (k : String) : Option (List String) :=
  (SPREADS.find? (fun p => p.1 == k)).map (fun p => p.2)

/-- The reading header of src/main.py line 44. -/
def readingHeader (spread_type : String) : String :=
  "## 🔮 Tarot Reading - " ++ pyTitle (replaceUnderscores spread_type) ++ "\n"

/-- The question line of src/main.py lines 46-47; Python string truthiness
means `None` and the empty string both suppress it. -/
def questionPart : Option String → String
  | none => ""
  | some q => if q = "" then "" else "**Question:** " ++ q ++ "\n\n"

/-- One loop body of `TarotReading.generate_reading` (src/main.py lines 49-68)
for a card, its position label and the orientation coin flip of line 51. -/
def cardSection (card : Card) (position : String) (is_reversed : Bool) : String :=
  let orientLabel := if is_reversed then "Reversed 🔄" else "Upright ⬆️"
  let suitLine :=
    match card.suit with
    | some s => if s = "" then "" else "**Suit:** " ++ pyTitle s ++ "\n"
    | none => ""
  "### " ++ position ++ "\n"
    ++ "**Card:** " ++ card.name ++ " (" ++ orientLabel ++ ")\n"
    ++ "**Arcana:** " ++ pyTitle card.arcana ++ "\n"
    ++ suitLine
    ++ "**Keywords:** " ++ String.intercalate ", " card.keywords ++ "\n"
    ++ "**Interpretation:** "
    ++ (if is_reversed then card.meaning_rev else card.meaning_up) ++ "\n\n"

/-- The `enumerate(zip(self.cards, self.positions))` loop of
`generate_reading`: index `i` consumes flip `flips i` (the `random.choice`
of line 51 at the i-th iteration of the internal random stream). -/
def readingSectionsAux (flips : Nat → Bool) : Nat → List (Card × String) → List String
  | _, [] => []
  | i, cp :: rest => cardSection cp.1 cp.2 (flips i) :: readingSectionsAux flips (i + 1) rest

def readingSections (cards : List Card) (positions : List String) (flips : Nat → Bool) :
    List String :=
  readingSectionsAux flips 0 (cards.zip positions)

/-- `TarotReading.generate_reading` (src/main.py lines 42-70): positions come
from `SPREADS.get(spread_type, [])` (line 40); each section rolls its own
orientation from the random stream `flips` — the flips are consumed INSIDE
this text renderer, they are not taken from the reading. -/
def generate_reading (cards : List Card) (spread_type : String)
    (question : Option String) (flips : Nat → Bool) : String :=
  readingHeader spread_type ++ questionPart question ++
    String.join (readingSections cards ((spreadsLookup spread_type).getD []) flips)

/-- Card-art filename of src/main.py line 80:
number, underscore, lowercased space-to-underscore name, `.jpg`. -/
def card_filename (card : Card) : String :=
  card.number ++ "_" ++ spacesToUnderscores (pyLower card.name) ++ ".jpg"

/-- `os.path.join` of the `card_images` directory and the filename, at src/main.py line 81. -/
def card_path (card : Card) : String :=
  "card_images/" ++ card_filename card

/-- One PIL drawing/compositing call, in the order `create_card_image`
performs them on its 400×600 canvas. -/
inductive DrawOp where
  | pasteCard (path : String) (rotated : Bool)
  | placeholderRect
  | placeholderText (name : String)
  | positionBar
  | positionText (label : String)
  | orientText (label : String)
deriving DecidableEq

/-- The value returned by `create_card_image`: the encoded canvas.  `ops` is
the trace of drawing calls applied to the blank background. -/
structure CardImage where
  width : Nat
  height : Nat
  format : String
  ops : List DrawOp
deriving DecidableEq

/-- `TarotReading.create_card_image` (src/main.py lines 72-108).
`fsExists` is the oracle for `os.path.exists(card_path)` (line 83);
`loadOk` says whether the `Image.open`/rotate/resize/paste chain of lines
84-87 succeeds.  The try block is embedded as an `Except` whose error the
bare `except: pass` of lines 92-93 swallows, so a load failure leaves the
canvas with NO card ops (the placeholder branch of lines 88-91 runs only
when the file does not exist).  The caption bar and labels of lines 96-101
are always drawn, and the canvas is always encoded as PNG (lines 104-108);
the embedded function is total: no exception reaches the caller. -/
def create_card_image (card : Card) (position : String) (is_reversed : Bool)
    (fsExists : Bool) (loadOk : Bool) : CardImage :=
  let path := card_path card
  let tryBlock : Except Unit (List DrawOp) :=
    if fsExists then
      if loadOk then Except.ok [DrawOp.pasteCard path is_reversed]
      else Except.error ()
    else
      Except.ok [DrawOp.placeholderRect, DrawOp.placeholderText card.name]
  let cardOps :=
    match tryBlock with
    | Except.ok ops => ops
    | Except.error _ => []
  { width := 400, height := 600, format := "PNG",
    ops := cardOps ++
      [DrawOp.positionBar, DrawOp.positionText position,
       DrawOp.orientText (if is_reversed then "Reversed" else "Upright")] }

/-- `True` when the image trace drew the placeholder (bordered rectangle with
the card name centered), as spoken of by the spec. -/
def hasPlaceholder (img : CardImage) : Bool :=
  img.ops.any fun op =>
    match op with
    | DrawOp.placeholderRect => true
    | DrawOp.placeholderText _ => true
    | _ => false

/-- `random.sample(population, k)` (src/main.py line 148): the random choice
is the index oracle `pick`; the call raises `ValueError` exactly when
`k > len(population)`, and otherwise returns `k` chosen elements. -/
def pySample (population : List Card) (k : Nat) (pick : Nat → Nat) :
    Except String (List Card) :=
  if k ≤ population.length then
    Except.ok ((List.range k).map fun i => population.getD (pick i) defaultCard)
  else Except.error "Sample larger than population or is negative"

/-- The per-card image loop of src/main.py lines 170-173: index `i` uses the
pre-drawn orientation `imgFlips i` of line 149. -/
def cardImagesAux (fsExists loadOk : String → Bool) (imgFlips : Nat → Bool) :
    Nat → List (Card × String) → List CardImage
  | _, [] => []
  | i, cp :: rest =>
      create_card_image cp.1 cp.2 (imgFlips i)
          (fsExists (card_path cp.1)) (loadOk (card_path cp.1)) ::
        cardImagesAux fsExists loadOk imgFlips (i + 1) rest

/-- The Reading data the command builds and dispatches: the embed text, the
drawn cards with their position labels, and one image per drawn card. -/
structure ReadingOut where
  text : String
  cards : List Card
  positions : List String
  images : List CardImage
deriving DecidableEq

/-- What the `!tarot` command hands to the user: either the spread-catalog
listing (unknown spread id, src/main.py lines 126-142) or a reading. -/
inductive TarotResponse where
  | catalog (entries : List (String × Nat))
  | reading (r : ReadingOut)
deriving DecidableEq

/-- The catalog listing built at src/main.py lines 134-139: each spread name
with its card count. -/
def tarot_catalog : List (String × Nat) :=
  SPREADS.map fun p => (p.1, p.2.length)

/-- The `tarot_reading` command (src/main.py lines 122-173).  `pick` is the
index oracle behind `random.sample` (line 148), `imgFlips` the orientation
list of line 149 (used only for the images, lines 170-171), `textFlips` the
further coin flips `generate_reading` rolls internally (line 51).  An
uncaught `ValueError` from sampling propagates as `Except.error` before any
reading output exists. -/
def tarot_reading_cmd (deck : List Card) (spread_type : String)
    (question : Option String) (pick : Nat → Nat)
    (textFlips imgFlips : Nat → Bool) (fsExists loadOk : String → Bool) :
    Except String TarotResponse :=
  match spreadsLookup spread_type with
  | none => Except.ok (TarotResponse.catalog tarot_catalog)
  | some positions =>
    match pySample deck positions.length pick with
    | Except.error e => Except.error e
    | Except.ok drawn_cards =>
      Except.ok (TarotResponse.reading
        { text := generate_reading drawn_cards spread_type question textFlips,
          cards := drawn_cards,
          positions := positions,
          images := cardImagesAux fsExists loadOk imgFlips 0 (drawn_cards.zip positions) })

/-- The fallback branch of `on_command_error` (src/main.py lines 319-320):
an uncaught command exception is reported to the user as a message. -/
def on_command_error_msg (e : String) : String :=
  "❌ An error occurred: " ++ e

/-- The match test of src/main.py lines 184-185:
lowercased query tested as a Python substring of the lowercased card name. -/
def isMatch (card_name : String) (c : Card) : Bool :=
  strContains (pyLower c.name) (pyLower card_name)

/-- The lookup of src/main.py lines 184-185: first match in deck order. -/
def single_card_find (deck : List Card) (card_name : String) : Option Card :=
  deck.find? (isMatch card_name)

inductive CardLookupResponse where
  | info (c : Card)
  | notFound (msg : String)
deriving DecidableEq

/-- The not-found message of src/main.py line 188. -/
def card_not_found_msg (card_name : String) : String :=
  "❌ Card " ++ sq ++ card_name ++ sq ++ " not found. Try `!cards` to see all cards."

/-- The `!card` command (src/main.py lines 175-209): with no query a random
card (`randPick` oracle), otherwise the substring lookup, answering the
not-found message when nothing matches. -/
def single_card_cmd (deck : List Card) (card_name : Option String) (randPick : Nat) :
    CardLookupResponse :=
  match card_name with
  | none => CardLookupResponse.info (deck.getD randPick defaultCard)
  | some q =>
    match single_card_find deck q with
    | none => CardLookupResponse.notFound (card_not_found_msg q)
    | some c => CardLookupResponse.info c

/-- A deck-source record as json.load hands it over: any field may be absent
(`none` in the outer Option); `suit` additionally may be JSON null. -/
structure RawCard where
  number : Option String
  name : Option String
  arcana : Option String
  suit : Option (Option String)
  keywords : Option (List String)
  meaning_up : Option String
  meaning_rev : Option String
deriving DecidableEq

def rawMissingField (c : RawCard) : Bool :=
  c.number.isNone || c.name.isNone || c.arcana.isNone || c.suit.isNone ||
    c.keywords.isNone || c.meaning_up.isNone || c.meaning_rev.isNone

def namesPairwiseDistinct : List (Option String) → Bool
  | [] => true
  | n :: rest => !(rest.contains n) && namesPairwiseDistinct rest

/-- Formalisation of the claim&#39;s notion of a malformed deck source, from the
spec&#39;s words: a record missing a required field, two cards sharing a name,
or an empty deck. -/
def deckMalformed (source : List RawCard) : Bool :=
  source.isEmpty || source.any rawMissingField ||
    !(namesPairwiseDistinct (source.map RawCard.name))

/-- Deck loading as src/main.py lines 21-22 perform it:
`tarot_cards = json.load(f)` — the parsed record list is taken as-is, with
no validation step of any kind, so loading never fails on a well-formed
JSON file whatever records it holds. -/
def load_tarot_cards (source : List RawCard) : Except String (List RawCard) :=
  Except.ok source

/-- A small concrete deck for witnesses. -/
def theFool : Card :=
  { number := "0", name := "The Fool", arcana := "major", suit := none,
    keywords := ["beginnings", "innocence", "spontaneity"],
    meaning_up := "New beginnings and a leap of faith",
    meaning_rev := "Recklessness and poor judgement" }

def theMagician : Card :=
  { number := "1", name := "The Magician", arcana := "major", suit := none,
    keywords := ["manifestation", "power", "action"],
    meaning_up := "Skill and resourcefulness at work",
    meaning_rev := "Manipulation and untapped talents" }

def aceOfCups : Card :=
  { number := "27", name := "Ace of Cups", arcana := "minor", suit := some "cups",
    keywords := ["love", "new feelings", "intuition"],
    meaning_up := "An overflowing of new emotion",
    meaning_rev := "Blocked or repressed feelings" }

def demoDeck : List Card := [theFool, theMagician, aceOfCups]

/-- Projects the reading out of a command response, when one was produced. -/
def readingOf : Except String TarotResponse → Option ReadingOut
  | Except.ok (TarotResponse.reading r) => some r
  | _ => none

/-- One concrete run of the `!tarot single` command on the demo deck, at the
random outcome where every text-renderer coin flip (line 51) lands False
(upright) while every pre-drawn image orientation of line 149 is True
(reversed); no card-art file exists. -/
def demoMismatchRun : Except String TarotResponse :=
  tarot_reading_cmd demoDeck "single" none (fun _ => 0)
    (fun _ => false) (fun _ => true) (fun _ => false) (fun _ => false)

theorem readingSectionsAux_length (flips : Nat → Bool) (n : Nat)
    (l : List (Card × String)) :
    (readingSectionsAux flips n l).length = l.length := by
  induction l generalizing n with
  | nil => rfl
  | cons cp rest ih => simp [readingSectionsAux, ih]

theorem readingSectionsAux_get (flips : Nat → Bool) (n : Nat)
    (l : List (Card × String)) (i : Nat)
    (h : i < (readingSectionsAux flips n l).length) (hl : i < l.length) :
    (readingSectionsAux flips n l).get ⟨i, h⟩ =
      cardSection (l.get ⟨i, hl⟩).1 (l.get ⟨i, hl⟩).2 (flips (n + i)) := by
  induction l generalizing n i with
  | nil => simp at hl
  | cons cp rest ih =>
    cases i with
    | zero => rfl
    | succ m =>
      have h2 : m < (readingSectionsAux flips (n + 1) rest).length := by
        rw [readingSectionsAux_length]; exact Nat.lt_of_succ_lt_succ hl
      have hl2 : m < rest.length := Nat.lt_of_succ_lt_succ hl
      have step := ih (n + 1) m h2 hl2
      have harg : n + (m + 1) = (n + 1) + m := by omega
      rw [show (readingSectionsAux flips n (cp :: rest)).get ⟨m + 1, h⟩ =
            (readingSectionsAux flips (n + 1) rest).get ⟨m, h2⟩ from rfl,
          show ((cp :: rest).get ⟨m + 1, hl⟩) = rest.get ⟨m, hl2⟩ from rfl,
          harg]
      exact step

theorem zip_get_eq (as : List Card) (bs : List String) (i : Nat)
    (h : i < (as.zip bs).length) (ha : i < as.length) (hb : i < bs.length) :
    (as.zip bs).get ⟨i, h⟩ = (as.get ⟨i, ha⟩, bs.get ⟨i, hb⟩) := by
  induction as generalizing bs i with
  | nil => simp at ha
  | cons a rest ih =>
    cases bs with
    | nil => simp at hb
    | cons b brest =>
      cases i with
      | zero => rfl
      | succ m =>
        have hz : m < (rest.zip brest).length := by
          simpa [List.length_zip] using h
        have ha2 : m < rest.length := Nat.lt_of_succ_lt_succ ha
        have hb2 : m < brest.length := Nat.lt_of_succ_lt_succ hb
        exact ih brest m hz ha2 hb2

theorem sample_names_nodup (deck : List Card) (k : Nat) (pick : Nat → Nat)
    (hbound : ∀ i < k, pick i < deck.length)
    (hinj : ∀ i < k, ∀ j < k, pick i = pick j → i = j)
    (hnames : (deck.map Card.name).Nodup) :
    ((((List.range k).map fun i => deck.getD (pick i) defaultCard).map
      Card.name)).Nodup := by
  rw [List.map_map]
  refine List.Nodup.map_on ?_ (List.nodup_range k)
  intro i hi j hj he
  rw [List.mem_range] at hi hj
  have hbi := hbound i hi
  have hbj := hbound j hj
  simp only [Function.comp_apply] at he
  rw [List.getD_eq_get deck defaultCard hbi, List.getD_eq_get deck defaultCard hbj] at he
  have hbi2 : pick i < (deck.map Card.name).length := by simpa using hbi
  have hbj2 : pick j < (deck.map Card.name).length := by simpa using hbj
  have hmap : (deck.map Card.name).get ⟨pick i, hbi2⟩ =
      (deck.map Card.name).get ⟨pick j, hbj2⟩ := by
    rw [List.get_map, List.get_map]
    exact he
  have hfin := (List.Nodup.get_inj_iff hnames).mp hmap
  exact hinj i hi j hj (congrArg Fin.val hfin)

theorem find_first_match (deck : List Card) (q : String) (c : Card)
    (h : single_card_find deck q = some c) :
    isMatch q c = true ∧
      ∃ pre post, deck = pre ++ c :: post ∧ ∀ c2 ∈ pre, isMatch q c2 = false := by
  induction deck with
  | nil => simp [single_card_find] at h
  | cons a rest ih =>
    by_cases ha : isMatch q a = true
    · rw [single_card_find, List.find?_cons_of_pos rest ha] at h
      have hca : c = a := by injection h with h2; exact h2.symm
      subst hca
      exact ⟨ha, [], rest, rfl, by intro c2 hc2; simp at hc2⟩
    · rw [single_card_find, List.find?_cons_of_neg rest ha] at h
      obtain ⟨hm, pre, post, heq, hpre⟩ := ih h
      refine ⟨hm, a :: pre, post, by rw [heq]; rfl, ?_⟩
      intro c2 hc2
      rcases List.mem_cons.mp hc2 with h1 | h2
      · subst h1; exact Bool.eq_false_iff.mpr ha
      · exact hpre c2 h2

/-- C1: The spec says the text renderer is deterministic on a Reading, with
orientation fixed upstream by draw and no random choice inside the renderer.
The code is wrong: `generate_reading` rolls a fresh `random.choice` per card
(src/main.py line 51) and ignores the orientations drawn at line 149, so the
same Reading renders differently under different internal random outcomes. -/
theorem generate_reading_internal_randomness :
    generate_reading [theFool] "single" none (fun _ => false) ≠
      generate_reading [theFool] "single" none (fun _ => true) := by
  decide

/-- C2: for every spread in the catalog and every deck with distinct card
names holding at least as many cards as the spread has positions, and every
outcome of the sampling oracle that `random.sample` can produce (distinct
in-range indices), the command yields a reading with exactly one card per
position and no card name repeated. -/
theorem draw_count_and_distinct (deck : List Card) (spread_type : String)
    (positions : List String) (question : Option String) (pick : Nat → Nat)
    (tF iF : Nat → Bool) (fsE lo : String → Bool)
    (hpos : spreadsLookup spread_type = some positions)
    (hsize : positions.length ≤ deck.length)
    (hbound : ∀ i < positions.length, pick i < deck.length)
    (hinj : ∀ i < positions.length, ∀ j < positions.length, pick i = pick j → i = j)
    (hnames : (deck.map Card.name).Nodup) :
    ∃ r : ReadingOut,
      tarot_reading_cmd deck spread_type question pick tF iF fsE lo =
        Except.ok (TarotResponse.reading r)
      ∧ r.cards.length = positions.length
      ∧ (r.cards.map Card.name).Nodup := by
  have hsample : pySample deck positions.length pick =
      Except.ok ((List.range positions.length).map
        fun i => deck.getD (pick i) defaultCard) := by
    rw [pySample, if_pos hsize]
  refine ⟨{ text := generate_reading ((List.range positions.length).map
              fun i => deck.getD (pick i) defaultCard) spread_type question tF,
            cards := (List.range positions.length).map
              fun i => deck.getD (pick i) defaultCard,
            positions := positions,
            images := cardImagesAux fsE lo iF 0
              (((List.range positions.length).map
                fun i => deck.getD (pick i) defaultCard).zip positions) },
          ?_, ?_, ?_⟩
  · simp only [tarot_reading_cmd, hpos, hsample]
  · simp
  · exact sample_names_nodup deck positions.length pick hbound hinj hnames

theorem draw_count_and_distinct_witness :
    ∃ r : ReadingOut,
      tarot_reading_cmd demoDeck "three_card" none (fun i => i) (fun _ => false)
          (fun _ => false) (fun _ => false) (fun _ => false) =
        Except.ok (TarotResponse.reading r)
      ∧ r.cards.length = (["Past", "Present", "Future"] : List String).length
      ∧ (r.cards.map Card.name).Nodup :=
  draw_count_and_distinct demoDeck "three_card" ["Past", "Present", "Future"] none
    (fun i => i) (fun _ => false) (fun _ => false) (fun _ => false) (fun _ => false)
    rfl (by decide) (fun _ hi => hi) (fun _ _ _ _ h => h) (by decide)

/-- C3 counterexample: the claim says any load failure falls back to the
placeholder.  At a concrete input whose asset file exists but fails to load,
the rendered canvas carries no placeholder at all (the bare `except: pass`
skips the placeholder branch, which runs only when the file is absent). -/
theorem create_card_image_load_failure_no_placeholder :
    hasPlaceholder (create_card_image theFool "Present" false true false) = false := by
  decide

/-- C3 (amended): when the asset file is missing the placeholder is drawn;
when the file exists but loading or compositing fails, the failure is
swallowed and the canvas keeps only the background plus the caption bar,
position label and orientation label — no placeholder; in both cases the
renderer returns normally to the caller. -/
theorem create_card_image_failure_policy (card : Card) (position : String)
    (rev lo : Bool) :
    hasPlaceholder (create_card_image card position rev false lo) = true
    ∧ (create_card_image card position rev true false).ops =
        [DrawOp.positionBar, DrawOp.positionText position,
         DrawOp.orientText (if rev then "Reversed" else "Upright")] :=
  ⟨rfl, rfl⟩

/-- C4 counterexample: the claim says a malformed source (here: the empty
deck) makes loading fail with DeckLoadError; the code accepts it unchanged,
since src/main.py lines 21-22 run no validation at all. -/
theorem deck_load_accepts_malformed :
    deckMalformed [] = true ∧ load_tarot_cards [] = Except.ok [] :=
  ⟨rfl, rfl⟩

/-- C4 (amended): deck loading performs no validation whatsoever — every
record list parsed from the JSON source is accepted as-is, including empty
decks, duplicate names and records missing required fields; no DeckLoadError
exists in the code. -/
theorem load_tarot_cards_no_validation (source : List RawCard) :
    load_tarot_cards source = Except.ok source := rfl

/-- C5: on a spread id outside the catalog the command answers with the
spread-catalog listing; the result is this fixed listing for every deck and
every sampling-oracle outcome, so no card is ever sampled and the deck is
never touched. -/
theorem unknown_spread_shows_catalog (deck : List Card) (spread_type : String)
    (question : Option String) (pick : Nat → Nat) (tF iF : Nat → Bool)
    (fsE lo : String → Bool) (h : spreadsLookup spread_type = none) :
    tarot_reading_cmd deck spread_type question pick tF iF fsE lo =
      Except.ok (TarotResponse.catalog tarot_catalog) := by
  rw [tarot_reading_cmd, h]

theorem unknown_spread_shows_catalog_witness :
    tarot_reading_cmd demoDeck "help" none (fun _ => 0) (fun _ => false)
        (fun _ => false) (fun _ => false) (fun _ => false) =
      Except.ok (TarotResponse.catalog tarot_catalog) :=
  unknown_spread_shows_catalog demoDeck "help" none (fun _ => 0) (fun _ => false)
    (fun _ => false) (fun _ => false) (fun _ => false) rfl

/-- C6: when the spread needs more cards than the deck holds, sampling
raises before any reading is built, the command produces the error and no
partial reading; `on_command_error` turns it into the user-visible report. -/
theorem insufficient_cards_error (deck : List Card) (spread_type : String)
    (positions : List String) (question : Option String) (pick : Nat → Nat)
    (tF iF : Nat → Bool) (fsE lo : String → Bool)
    (hpos : spreadsLookup spread_type = some positions)
    (h : deck.length < positions.length) :
    tarot_reading_cmd deck spread_type question pick tF iF fsE lo =
        Except.error "Sample larger than population or is negative"
    ∧ on_command_error_msg "Sample larger than population or is negative" =
        "❌ An error occurred: Sample larger than population or is negative" := by
  constructor
  · have hsample : pySample deck positions.length pick =
        Except.error "Sample larger than population or is negative" := by
      rw [pySample, if_neg (by omega)]
    simp only [tarot_reading_cmd, hpos, hsample]
  · rfl

theorem insufficient_cards_error_witness :
    tarot_reading_cmd [] "single" none (fun _ => 0) (fun _ => false)
        (fun _ => false) (fun _ => false) (fun _ => false) =
        Except.error "Sample larger than population or is negative"
    ∧ on_command_error_msg "Sample larger than population or is negative" =
        "❌ An error occurred: Sample larger than population or is negative" :=
  insufficient_cards_error [] "single" ["Present"] none (fun _ => 0)
    (fun _ => false) (fun _ => false) (fun _ => false) (fun _ => false)
    rfl (by decide)

/-- C7: card lookup is a case-insensitive substring match on card names; a
hit is the first matching card in deck-declaration order, and with no match
the command answers the user-facing not-found message (no exception: the
embedded command is total). -/
theorem card_lookup_spec (deck : List Card) (q : String) (randPick : Nat) :
    (∀ c, single_card_find deck q = some c →
        isMatch q c = true ∧
          ∃ pre post, deck = pre ++ c :: post ∧ ∀ c2 ∈ pre, isMatch q c2 = false)
    ∧ ((∀ c ∈ deck, isMatch q c = false) →
        single_card_cmd deck (some q) randPick =
          CardLookupResponse.notFound (card_not_found_msg q)) := by
  constructor
  · intro c hc
    exact find_first_match deck q c hc
  · intro hall
    have hnone : single_card_find deck q = none := by
      rw [single_card_find, List.find?_eq_none]
      intro x hx
      simp [hall x hx]
    rw [single_card_cmd, hnone]

theorem card_lookup_spec_witness :
    single_card_cmd demoDeck (some "zzzznotacard") 0 =
      CardLookupResponse.notFound (card_not_found_msg "zzzznotacard") :=
  (card_lookup_spec demoDeck "zzzznotacard" 0).2 (by decide)

/-- C8: the rendered text is the header, then the question line exactly when
a (nonempty, as the command layer guarantees) question was supplied, then
one section per drawn card; section i shows the i-th drawn card at the i-th
position label, in draw order. -/
theorem generate_reading_sections_spec (cards : List Card) (spread_type : String)
    (positions : List String) (question : Option String) (flips : Nat → Bool)
    (hpos : spreadsLookup spread_type = some positions)
    (hlen : cards.length = positions.length)
    (hq : ∀ s, question = some s → s ≠ "") :
    generate_reading cards spread_type question flips =
        readingHeader spread_type ++ questionPart question ++
          String.join (readingSections cards positions flips)
    ∧ (readingSections cards positions flips).length = cards.length
    ∧ (∀ i (h1 : i < cards.length) (h2 : i < positions.length)
        (h3 : i < (readingSections cards positions flips).length),
        (readingSections cards positions flips).get ⟨i, h3⟩ =
          cardSection (cards.get ⟨i, h1⟩) (positions.get ⟨i, h2⟩) (flips i))
    ∧ (questionPart question = "" ↔ question = none) := by
  refine ⟨?_, ?_, ?_, ?_⟩
  · rw [generate_reading, hpos]
    rfl
  · show (readingSectionsAux flips 0 (cards.zip positions)).length = cards.length
    rw [readingSectionsAux_length, List.length_zip, hlen, Nat.min_self]
  · intro i h1 h2 h3
    have hz : i < (cards.zip positions).length := by
      rw [List.length_zip]; omega
    have h3a : i < (readingSectionsAux flips 0 (cards.zip positions)).length := h3
    show (readingSectionsAux flips 0 (cards.zip positions)).get ⟨i, h3a⟩ =
      cardSection (cards.get ⟨i, h1⟩) (positions.get ⟨i, h2⟩) (flips i)
    rw [readingSectionsAux_get flips 0 (cards.zip positions) i h3a hz,
      zip_get_eq cards positions i hz h1 h2, Nat.zero_add]
  · constructor
    · intro h
      cases question with
      | none => rfl
      | some s =>
        exfalso
        have hs := hq s rfl
        rw [questionPart, if_neg hs] at h
        have hlen2 := congrArg String.length h
        rw [String.length_append, String.length_append] at hlen2
        have h14 : ("**Question:** " : String).length = 14 := rfl
        have hnn : ("\n\n" : String).length = 2 := rfl
        have h0 : ("" : String).length = 0 := rfl
        rw [h14, hnn, h0] at hlen2
        omega
    · intro h
      subst h
      rfl

theorem generate_reading_sections_spec_witness :
    (readingSections demoDeck ["Past", "Present", "Future"] (fun _ => false)).length =
      demoDeck.length :=
  (generate_reading_sections_spec demoDeck "three_card" ["Past", "Present", "Future"]
    (some "Will I get the job?") (fun _ => false) rfl (by decide)
    (fun s h => by cases h; decide)).2.1

/-- C9: for every card, position, orientation and filesystem outcome —
whether or not the asset file exists, and whether or not loading succeeds —
image rendering returns normally (the embedded renderer is a total function)
with a PNG-encoded canvas of the fixed 400×600 size. -/
theorem create_card_image_canvas_spec (card : Card) (position : String)
    (rev fsE lo : Bool) :
    (create_card_image card position rev fsE lo).width = 400
    ∧ (create_card_image card position rev fsE lo).height = 600
    ∧ (create_card_image card position rev fsE lo).format = "PNG" :=
  ⟨rfl, rfl, rfl⟩

/-- C10: the orientation in the reading text and the one used for the card
image come from independent random draws (src/main.py line 51 versus line
149), so at the concrete random outcome of `demoMismatchRun` the text labels
the card Upright while its image is captioned Reversed. -/
theorem text_image_orientation_mismatch :
    (readingOf demoMismatchRun).map
        (fun r => strContains r.text "(Upright ⬆️)") = some true
    ∧ (readingOf demoMismatchRun).map
        (fun r => strContains r.text "(Reversed") = some false
    ∧ (readingOf demoMismatchRun).map
        (fun r => r.images.any fun img =>
          img.ops.contains (DrawOp.orientText "Reversed")) = some true
    ∧ (readingOf demoMismatchRun).map
        (fun r => r.images.any fun img =>
          img.ops.contains (DrawOp.orientText "Upright")) = some false := by
  refine ⟨?_, ?_, ?_, ?_⟩ <;> decide

end TarotBot
